import Mathlib

/-!
# Verification of the iTunes Connect reporter protocol engine

A shallow embedding of `src/reporter.py` (nikolaik/itc-reporter): credential
resolution, JSON request construction, command dispatch, the `generateToken`
command (whose intended second leg is unreachable under Python 3, see
`itc_generate_token`), HTTP error classification, and response output
processing.  External collaborators (the network, the environment, the
interactive password prompt, the zlib decompressor) are passed in as explicit
values or functions; everything the script itself computes is embedded as an
executable Lean definition.
-/

namespace ITCReporter

/-- `VERSION = '2.2'` (reporter.py line 43). -/
def VERSION : String := "2.2"

/-- `ENDPOINT_SALES` (reporter.py line 44). -/
def ENDPOINT_SALES : String := "https://reportingitc-reporter.apple.com/reportservice/sales/v1"

/-- `ENDPOINT_FINANCE` (reporter.py line 45). -/
def ENDPOINT_FINANCE : String := "https://reportingitc-reporter.apple.com/reportservice/finance/v1"

/-- The command-line argument namespace produced by `argparse`
(reporter.py `parse_arguments`).  Fields that a given subcommand does not
define are simply unused by that subcommand's handler.  `access_token` and
`password` are `None` or a string; `account` is `None` or an integer
(`type=int`); `vendor` is an integer (`type=int`). -/
structure Args where
  userid : String
  access_token : Option String
  password : Option String
  account : Option Int
  mode : String
  service : String
  vendor : Int
  datetype : String
  date : String

/-- The process environment, an association list of variable names to values. -/
structure Env where
  vars : List (String × String)

/-- `os.getenv(name, default)`: the variable's value, or the default when it
is unset. -/
def os_getenv (env : Env) (name dflt : String) : String :=
  (env.vars.lookup name).getD dflt

/-- Python truthiness of an optional string: `None` and `''` are falsy,
every other string is truthy. -/
def pyTruthy : Option String → Bool
  | none => false
  | some s => s ≠ ""

/-- Python `str()` of an `Optional[int]`: `str(None) = "None"`, otherwise the
decimal rendering of the integer (reporter.py line 112 applies `str` to
`args.account`). -/
def pyStrOptInt : Option Int → String
  | none => "None"
  | some n => toString n

/-- The credential tuple returned by `get_credentials`
(reporter.py line 112): `(userid, access_token, password, account, mode)`,
where `account` has already been passed through `str()`. -/
structure Credentials where
  userid : String
  access_token : String
  password : String
  account : String
  mode : String
deriving DecidableEq, Repr

/-- `get_credentials(args)` (reporter.py lines 100-112).  `promptInput` is the
string the interactive collaborator `input('iTunes Connect password')` would
return, supplied as a parameter because the prompt is an external effect. -/
def get_credentials (args : Args) (env : Env) (promptInput : String) : Credentials :=
  let access_token :=
    if pyTruthy args.access_token then args.access_token.getD ""
    else os_getenv env "ITC_ACCESS_TOKEN" ""
  let password :=
    if access_token = "" then
      if pyTruthy args.password then args.password.getD "" else promptInput
    else ""
  { userid := args.userid, access_token := access_token, password := password,
    account := pyStrOptInt args.account, mode := args.mode }

/-- The JSON request object built by `build_json_request_string`
(reporter.py lines 115-128), as an insertion-ordered association list of
string-valued fields: `userid`, `version`, `mode`, `queryInput`, then
`account`, `accesstoken` and `password`, each of the last three only when its
string value is truthy (non-empty).  Serialization to the form-encoded wire
body preserves exactly these fields, so field presence in the wire payload is
field presence in this list. -/
def build_json_request (c : Credentials) (query : String) : List (String × String) :=
  let request := [("userid", c.userid), ("version", VERSION),
                  ("mode", c.mode), ("queryInput", query)]
  let request := if c.account ≠ "" then request ++ [("account", c.account)] else request
  let request := if c.access_token ≠ "" then request ++ [("accesstoken", c.access_token)] else request
  if c.password ≠ "" then request ++ [("password", c.password)] else request

/-- One outgoing HTTP POST, as assembled by `post_request`
(reporter.py lines 131-139): the endpoint URL, the JSON request object that
is form-encoded into the body, and the optional raw `url_params` string
appended verbatim to the encoded body (line 137). -/
structure HttpRequest where
  endpoint : String
  jsonRequest : List (String × String)
  url_params : Option String
deriving DecidableEq, Repr

/-- The request-assembly half of `post_request` (reporter.py lines 134-137):
wrap the command as `[p=Reporter.properties, <command>]`, build the JSON
request from the credentials and the wrapped command, and record the optional
extra raw form parameters. -/
def post_request_data (endpoint : String) (c : Credentials) (command : String)
    (url_params : Option String := none) : HttpRequest :=
  let wrapped := "[p=Reporter.properties, " ++ command ++ "]"
  { endpoint := endpoint, jsonRequest := build_json_request c wrapped,
    url_params := url_params }

/-- Error kinds surfaced by the engine; each constructor records the data
the code attaches.  `remoteRejected` and `remoteError` are the two
`ValueError`s of `post_request` (reporter.py lines 149-154), named after the
spec's taxonomy.  `attributeError` is Python's `AttributeError` from reading
a nonexistent attribute, as `header.dict` at line 85 does under Python 3
(`http.client.HTTPMessage` has no `dict` attribute).  `protocolViolation` is
the spec's kind for a successful response missing protocol-required data; it
is declared so that statements can compare against it, but no embedded code
path produces it — the code crashes with `attributeError` before it could
inspect the response.  `bodyDecodeError` is the `UnicodeDecodeError` a
strict `.decode('utf-8')` would raise on an invalid body. -/
inductive ItcError where
  | remoteRejected (message : String)
  | remoteError (statusCode : Nat) (message : String)
  | attributeError (attr : String)
  | protocolViolation (missingKey : String)
  | bodyDecodeError
deriving DecidableEq, Repr

/-! ## UTF-8 encoding and decoding

`bytes.decode('utf-8')` in strict mode, embedded over `List Nat` byte
sequences, plus the matching encoder used to build concrete byte inputs. -/

/-- Whether a byte is a UTF-8 continuation byte (`0x80..0xBF`). -/
def isCont (b : Nat) : Bool := 0x80 ≤ b ∧ b < 0xC0

/-- Strict UTF-8 decoding of a byte list into a character list: `none` on any
malformed, overlong, surrogate or out-of-range sequence, as Python's strict
`decode('utf-8')` rejects them. -/
def utf8DecodeList : List Nat → Option (List Char)
  | [] => some []
  | b0 :: rest =>
    if b0 < 0x80 then
      (utf8DecodeList rest).map (fun cs => Char.ofNat b0 :: cs)
    else if b0 < 0xC2 then none
    else if b0 < 0xE0 then
      match rest with
      | b1 :: rest2 =>
        if isCont b1 then
          (utf8DecodeList rest2).map
            (fun cs => Char.ofNat ((b0 - 0xC0) * 0x40 + (b1 - 0x80)) :: cs)
        else none
      | [] => none
    else if b0 < 0xF0 then
      match rest with
      | b1 :: b2 :: rest3 =>
        if isCont b1 ∧ isCont b2
            ∧ (b0 ≠ 0xE0 ∨ 0xA0 ≤ b1) ∧ (b0 ≠ 0xED ∨ b1 < 0xA0) then
          (utf8DecodeList rest3).map
            (fun cs => Char.ofNat
              ((b0 - 0xE0) * 0x1000 + (b1 - 0x80) * 0x40 + (b2 - 0x80)) :: cs)
        else none
      | _ => none
    else if b0 < 0xF5 then
      match rest with
      | b1 :: b2 :: b3 :: rest4 =>
        if isCont b1 ∧ isCont b2 ∧ isCont b3
            ∧ (b0 ≠ 0xF0 ∨ 0x90 ≤ b1) ∧ (b0 ≠ 0xF4 ∨ b1 < 0x90) then
          (utf8DecodeList rest4).map
            (fun cs => Char.ofNat
              ((b0 - 0xF0) * 0x40000 + (b1 - 0x80) * 0x1000
                + (b2 - 0x80) * 0x40 + (b3 - 0x80)) :: cs)
        else none
      | _ => none
    else none

/-- `bytes.decode('utf-8')` in strict mode: `none` on invalid input. -/
def decodeUtf8 (bs : List Nat) : Option String :=
  (utf8DecodeList bs).map (fun cs => ⟨cs⟩)

/-- UTF-8 encoding of one character. -/
def utf8EncodeChar (c : Char) : List Nat :=
  let n := c.toNat
  if n < 0x80 then [n]
  else if n < 0x800 then [0xC0 + n / 0x40, 0x80 + n % 0x40]
  else if n < 0x10000 then
    [0xE0 + n / 0x1000, 0x80 + n / 0x40 % 0x40, 0x80 + n % 0x40]
  else
    [0xF0 + n / 0x40000, 0x80 + n / 0x1000 % 0x40,
     0x80 + n / 0x40 % 0x40, 0x80 + n % 0x40]

/-- UTF-8 encoding of a string, used to build concrete byte-level inputs. -/
def utf8Encode (s : String) : List Nat :=
  (s.toList.map utf8EncodeChar).flatten

/-! ## Transport: receiving side of `post_request` -/

/-- What the HTTP library reports back for one POST: either a successful
response (body plus headers), or an `HTTPError` with a status code and an
error body (`urllib.request.urlopen` raises `HTTPError` exactly on
non-success statuses). -/
inductive HttpOutcome where
  | success (content : List Nat) (headers : List (String × String))
  | httpError (code : Nat) (body : List Nat)
deriving DecidableEq, Repr

/-- The generic message attached to the catch-all error branch
(reporter.py line 154). -/
def genericHttpErrorMessage (code : Nat) : String :=
  "HTTP Error " ++ toString code ++ ". Did you choose reasonable query arguments?"

/-- The response-handling half of `post_request` (reporter.py lines 142-154):
on success return `(content, header)`; on an `HTTPError` with status 400,
401, 403 or 404 fail with the decoded response body as the message
(`RemoteRejected`); on any other `HTTPError` status fail with the generic
message (`RemoteError`). -/
def post_request_receive (outcome : HttpOutcome) :
    Except ItcError (List Nat × List (String × String)) :=
  match outcome with
  | .success content headers => .ok (content, headers)
  | .httpError code body =>
    if code = 400 ∨ code = 401 ∨ code = 403 ∨ code = 404 then
      match decodeUtf8 body with
      | some msg => .error (.remoteRejected msg)
      | none => .error .bodyDecodeError
    else
      .error (.remoteError code (genericHttpErrorMessage code))

/-! ## Command dispatch

Each `itc_*` handler is embedded as a function that returns the trace of
externally visible protocol events it performs: credential resolutions
(calls to `get_credentials`, in evaluation order) and assembled HTTP POSTs.
Responses are mocked inputs where a handler inspects them
(`itc_generate_token` reads the first response's headers); the shared
response pipeline `output_result` is embedded separately below. -/

/-- One externally visible protocol event of a command handler. -/
inductive Event where
  | credResolve (c : Credentials)
  | httpPost (r : HttpRequest)
deriving DecidableEq, Repr

/-- Number of credential resolutions in a trace. -/
def credResolutions (tr : List Event) : Nat :=
  (tr.filter (fun e => match e with | .credResolve _ => true | _ => false)).length

/-- The HTTP POSTs of a trace, in order. -/
def postedRequests (tr : List Event) : List HttpRequest :=
  tr.filterMap (fun e => match e with | .httpPost r => some r | _ => none)

/-- `itc_get_vendors(args)` (reporter.py lines 48-50). -/
def itc_get_vendors (args : Args) (env : Env) (prompt : String) : List Event :=
  let command := "Sales.getVendors"
  let c := get_credentials args env prompt
  [.credResolve c, .httpPost (post_request_data ENDPOINT_SALES c command)]

/-- `itc_get_status(args)` (reporter.py lines 53-56). -/
def itc_get_status (args : Args) (env : Env) (prompt : String) : List Event :=
  let command := args.service ++ ".getStatus"
  let endpoint := if args.service = "Sales" then ENDPOINT_SALES else ENDPOINT_FINANCE
  let c := get_credentials args env prompt
  [.credResolve c, .httpPost (post_request_data endpoint c command)]

/-- `itc_get_accounts(args)` (reporter.py lines 59-62). -/
def itc_get_accounts (args : Args) (env : Env) (prompt : String) : List Event :=
  let command := args.service ++ ".getAccounts"
  let endpoint := if args.service = "Sales" then ENDPOINT_SALES else ENDPOINT_FINANCE
  let c := get_credentials args env prompt
  [.credResolve c, .httpPost (post_request_data endpoint c command)]

/-- `itc_get_vendor_and_regions(args)` (reporter.py lines 65-67). -/
def itc_get_vendor_and_regions (args : Args) (env : Env) (prompt : String) : List Event :=
  let command := "Finance.getVendorsAndRegions"
  let c := get_credentials args env prompt
  [.credResolve c, .httpPost (post_request_data ENDPOINT_FINANCE c command)]

/-- The command string built by `itc_get_sales_report` (reporter.py line 71):
`'Sales.getReport, {0},Sales,Summary,{1},{2}'.format(vendor, datetype, date)`. -/
def sales_report_command (vendor : Int) (datetype date : String) : String :=
  "Sales.getReport, " ++ toString vendor ++ ",Sales,Summary," ++ datetype ++ "," ++ date

/-- `itc_get_sales_report(args)` (reporter.py lines 70-72). -/
def itc_get_sales_report (args : Args) (env : Env) (prompt : String) : List Event :=
  let command := sales_report_command args.vendor args.datetype args.date
  let c := get_credentials args env prompt
  [.credResolve c, .httpPost (post_request_data ENDPOINT_SALES c command)]

/-- `itc_view_token(args)` (reporter.py lines 75-77). -/
def itc_view_token (args : Args) (env : Env) (prompt : String) : List Event :=
  let command := "Sales.viewToken"
  let c := get_credentials args env prompt
  [.credResolve c, .httpPost (post_request_data ENDPOINT_SALES c command)]

/-- `itc_delete_token(args)` (reporter.py lines 95-97). -/
def itc_delete_token (args : Args) (env : Env) (prompt : String) : List Event :=
  let command := "Sales.deleteToken"
  let c := get_credentials args env prompt
  [.credResolve c, .httpPost (post_request_data ENDPOINT_SALES c command)]

/-- `itc_generate_token(args)` (reporter.py lines 80-92): resolve
credentials and post `Sales.generateToken`; line 85 then evaluates
`header.dict['service_request_id']`.  The script's `urllib.request` imports
make it Python 3-only, and under Python 3 `response.info()` is an
`http.client.HTTPMessage`, which has no `dict` attribute (`dict` was the
Python 2 `mimetools.Message` API), so line 85 raises `AttributeError`
unconditionally — whatever headers the first response carries.  The second
leg at lines 87-92 (its `get_credentials` call and the
`&isExistingToken=Y&requestId=` request) is unreachable dead code.
The final parameter mocks the first response's header fields; the outcome
does not depend on it.  Returns the event trace together with the raised
error. -/
def itc_generate_token (args : Args) (env : Env) (prompt : String)
    (_firstHeaders : List (String × String)) : List Event × Except ItcError Unit :=
  let command := "Sales.generateToken"
  let c1 := get_credentials args env prompt
  let r1 := post_request_data ENDPOINT_SALES c1 command
  ([.credResolve c1, .httpPost r1], .error (.attributeError "dict"))

/-! ## Response processing: `output_result` -/

/-- The response headers as `output_result` reads them:
`header.get_content_type()` and the `downloadmsg` / `filename` fields
(`header.get` returns `None` for an absent field). -/
structure ResponseHeaders where
  contentType : String
  fields : List (String × String)
deriving DecidableEq, Repr

/-- `header.get(key)`: the field's value, or `None` when absent. -/
def ResponseHeaders.get (h : ResponseHeaders) (k : String) : Option String :=
  h.fields.lookup k

/-- Python `x or default` for an optional string `x`: the default when `x`
is `None` or empty (reporter.py line 165). -/
def pyOrStr (x : Option String) (dflt : String) : String :=
  match x with
  | some s => if s = "" then dflt else s
  | none => dflt

/-- Python `s[:-3]`: the string with its last three characters removed
(empty when it has at most three), as applied to the filename at
reporter.py line 168. -/
def pyDropLast3 (s : String) : String :=
  ⟨s.toList.take (s.length - 3)⟩

/-- Python `print(x)` of an `Optional[str]`: `None` prints as `"None"`. -/
def pyPrintOptStr : Option String → String
  | none => "None"
  | some s => s

/-- Left-to-right replacement of every non-overlapping occurrence of `pat` by
`repl` in a character list.  The fuel argument (instantiated with the input
length) only makes the recursion structural; every step consumes at least one
input character, so the fuel never runs out on `pyReplace`'s call. -/
def pyReplaceAux (pat repl : List Char) : Nat → List Char → List Char
  | _, [] => []
  | 0, l => l
  | fuel + 1, c :: rest =>
    if pat.isPrefixOf (c :: rest) ∧ pat ≠ [] then
      repl ++ pyReplaceAux pat repl fuel (rest.drop (pat.length - 1))
    else
      c :: pyReplaceAux pat repl fuel rest

/-- Python `s.replace(old, new)` for a non-empty `old` (the code only ever
replaces the literal `'.txt.gz'`): every non-overlapping occurrence of `old`,
scanned left to right, is replaced by `new`. -/
def pyReplace (s old new : String) : String :=
  ⟨pyReplaceAux old.toList new.toList s.toList.length s.toList⟩

/-- Errors `output_result` can raise: `attributeError` is the
`AttributeError` of `None.replace(...)` when the `downloadmsg` header is
absent in the unzip path (line 167); `decompressionError` is a `zlib.error`
from `zlib.decompress` (line 169); `bodyDecodeError` is a
`UnicodeDecodeError` from `content.decode('utf-8')` (line 178). -/
inductive OutputError where
  | attributeError
  | decompressionError
  | bodyDecodeError
deriving DecidableEq, Repr

/-- What `output_result` did: the file it wrote, if any, as
`(filename, bytes)`, and the text it printed. -/
structure Outcome where
  written : Option (String × List Nat)
  displayed : String
deriving DecidableEq, Repr

/-- `output_result(result, unzip=True)` (reporter.py lines 157-178).
`decompress` stands in for `zlib.decompress(content, 15 + 32)` (an external
library call), returning `none` on a corrupt stream.  For a gzip-typed
response the message and filename come from the headers (filename defaulting
to `report.txt.gz`); with `unzip` the message has `.txt.gz` rewritten to
`.txt`, the filename loses its last three characters and the body is
decompressed; the body is then written to the filename and the message
printed.  For any other content type the body is printed as UTF-8 text. -/
def output_result (decompress : List Nat → Option (List Nat))
    (result : List Nat × ResponseHeaders) (unzip : Bool := true) :
    Except OutputError Outcome :=
  let (content, header) := result
  if header.contentType = "application/a-gzip" then
    let msg := header.get "downloadmsg"
    let filename := pyOrStr (header.get "filename") "report.txt.gz"
    if unzip then
      match msg with
      | none => .error .attributeError
      | some m =>
        let m := pyReplace m ".txt.gz" ".txt"
        let filename := pyDropLast3 filename
        match decompress content with
        | none => .error .decompressionError
        | some unpacked => .ok { written := some (filename, unpacked), displayed := m }
    else
      .ok { written := some (filename, content), displayed := pyPrintOptStr msg }
  else
    match decodeUtf8 content with
    | none => .error .bodyDecodeError
    | some text => .ok { written := none, displayed := text }

/-- Whether a string ends in `.gz`, checked over its character list (its
last three characters, reversed, are `z`, `g`, `.`). -/
def strHasGzSuffix (s : String) : Bool :=
  s.toList.reverse.take 3 = ['z', 'g', '.']

/-- What the spec's words say the unzip filename transformation does: strip
exactly a trailing `.gz`, leaving filenames without that suffix unchanged.
Stated from the spec, for comparison with the source's `pyDropLast3`. -/
def specStripGzSuffix (s : String) : String :=
  if strHasGzSuffix s then ⟨s.toList.take (s.length - 3)⟩ else s

end ITCReporter


namespace ITCReporter

/-! ## Helper lemmas -/

/-- The built JSON request always carries the query string under
`queryInput`, whatever the conditional credential fields do. -/
theorem build_json_request_queryInput (c : Credentials) (q : String) :
    (build_json_request c q).lookup "queryInput" = some q := by
  unfold build_json_request
  split <;> split <;> split <;> simp [List.lookup]

/-- The `password` field of the built JSON request is present exactly when
the credential's password is non-empty, and then carries it. -/
theorem build_json_request_password_lookup (c : Credentials) (q : String) :
    (build_json_request c q).lookup "password"
      = if c.password = "" then none else some c.password := by
  unfold build_json_request
  split <;> split <;> split <;> simp_all [List.lookup]

/-- The `accesstoken` field of the built JSON request is present exactly when
the credential's access token is non-empty, and then carries it. -/
theorem build_json_request_accesstoken_lookup (c : Credentials) (q : String) :
    (build_json_request c q).lookup "accesstoken"
      = if c.access_token = "" then none else some c.access_token := by
  unfold build_json_request
  split <;> split <;> split <;> simp_all [List.lookup]

/-- `get_credentials` resolves the password to the empty string whenever it
resolved a non-empty access token. -/
theorem get_credentials_token_or_password (args : Args) (env : Env) (prompt : String) :
    (get_credentials args env prompt).access_token ≠ "" →
    (get_credentials args env prompt).password = "" := by
  unfold get_credentials
  intro h
  simp only at h ⊢
  split at h <;> simp_all

/-! ## Concrete sample inputs -/

/-- A concrete argument namespace: token authentication, no `-a` flag. -/
def sampleArgsToken : Args where
  userid := "apple-id@example.com"
  access_token := some "tok123"
  password := none
  account := none
  mode := "Normal"
  service := "Sales"
  vendor := 12345
  datetype := "Weekly"
  date := "20230101"

/-- The same arguments with an explicit account number of `0`. -/
def sampleArgsZeroAccount : Args :=
  { sampleArgsToken with account := some 0 }

/-- A concrete argument namespace: password authentication, account `42`. -/
def sampleArgsPassword : Args :=
  { sampleArgsToken with access_token := none, password := some "s3cret", account := some 42 }

/-- An empty process environment (in particular no `ITC_ACCESS_TOKEN`). -/
def envEmpty : Env := ⟨[]⟩

/-! ## Claims -/

/-- Claim C1.  The claim states that an absent or zero account value leads to
the `account` field being omitted from the built request.  The code does the
opposite: `get_credentials` converts `args.account` with `str()` before the
`if account:` presence test, and `str(None) = 'None'` and `str(0) = '0'` are
both truthy strings, so the field is always sent — as the junk value
`"None"` when the flag is absent and as `"0"` when it is zero.  This
contradicts the source's own comment that empty account info must be left
out because it results in error 404, so the presence test is a slip. -/
theorem C1_account_field_sent_for_absent_and_zero :
    ((build_json_request (get_credentials sampleArgsToken envEmpty "") "q").lookup "account"
        = some "None")
    ∧ ((build_json_request (get_credentials sampleArgsZeroAccount envEmpty "") "q").lookup "account"
        = some "0") := by
  decide

/-- Claim C2.  The claim states the intended two-leg handshake — which the
source's own comments at lines 83 and 87 also describe — but the code can
never execute it: even when the first response carries a
`service_request_id`, line 85's `header.dict` access raises `AttributeError`
under Python 3 after exactly one HTTP request, so the second request (with
`isExistingToken=Y&requestId=<id>`) is never issued.  Evaluated at a first
response that does carry the id. -/
theorem C2_generate_token_crashes_before_second_leg :
    List.lookup "service_request_id" [("service_request_id", "SID1")] = some "SID1"
    ∧ (postedRequests (itc_generate_token sampleArgsPassword envEmpty ""
        [("service_request_id", "SID1")]).1).length = 1
    ∧ (itc_generate_token sampleArgsPassword envEmpty ""
        [("service_request_id", "SID1")]).2 = .error (.attributeError "dict") :=
  ⟨by decide, by decide, rfl⟩

/-- Claim C3.  The claim states the intended missing-id failure: a
`ProtocolViolation` when the first response lacks `service_request_id`.  The
code does fail without issuing a second request on that input, but with the
unconditional `AttributeError` of line 85's `header.dict` access — not a
missing-data protocol violation: the identical error occurs when the id is
present, and the outcome is never a `protocolViolation`. -/
theorem C3_generate_token_attribute_error_unconditional :
    List.lookup "service_request_id" ([] : List (String × String)) = none
    ∧ (itc_generate_token sampleArgsPassword envEmpty "" []).2
        = .error (.attributeError "dict")
    ∧ (postedRequests (itc_generate_token sampleArgsPassword envEmpty "" []).1).length = 1
    ∧ (itc_generate_token sampleArgsPassword envEmpty ""
        [("service_request_id", "SID1")]).2 = .error (.attributeError "dict")
    ∧ ∀ k, (itc_generate_token sampleArgsPassword envEmpty "" []).2
        ≠ .error (.protocolViolation k) := by
  refine ⟨by decide, rfl, by decide, rfl, ?_⟩
  intro k
  simp [itc_generate_token]

/-- Claim C4.  HTTP status 400, 401, 403 and 404 fail with `RemoteRejected`
carrying exactly the decoded response body; every other failing status fails
with `RemoteError` carrying the status code and the generic "check your
query arguments" message; in particular a 404 with body `Unauthorized`
yields `RemoteRejected "Unauthorized"`, not `RemoteError`. -/
theorem C4_http_error_classification (code : Nat) (body : List Nat) (msg : String) :
    ((code = 400 ∨ code = 401 ∨ code = 403 ∨ code = 404) → decodeUtf8 body = some msg →
      post_request_receive (.httpError code body) = .error (.remoteRejected msg))
    ∧ (¬ (200 ≤ code ∧ code < 300) → ¬ (code = 400 ∨ code = 401 ∨ code = 403 ∨ code = 404) →
      post_request_receive (.httpError code body)
        = .error (.remoteError code (genericHttpErrorMessage code)))
    ∧ post_request_receive (.httpError 404 (utf8Encode "Unauthorized"))
        = .error (.remoteRejected "Unauthorized") := by
  refine ⟨?_, ?_, rfl⟩
  · intro h hd
    simp [post_request_receive, h, hd]
  · intro _ h
    simp [post_request_receive, h]

/-- Witness for C4 at concrete inputs: a 401 with body `Denied`, a 500, and
the 404/`Unauthorized` scenario. -/
theorem C4_http_error_classification_witness :
    post_request_receive (.httpError 401 (utf8Encode "Denied")) = .error (.remoteRejected "Denied")
    ∧ post_request_receive (.httpError 500 [])
        = .error (.remoteError 500 (genericHttpErrorMessage 500))
    ∧ genericHttpErrorMessage 500 = "HTTP Error 500. Did you choose reasonable query arguments?"
    ∧ post_request_receive (.httpError 404 (utf8Encode "Unauthorized"))
        = .error (.remoteRejected "Unauthorized") :=
  ⟨(C4_http_error_classification 401 (utf8Encode "Denied") "Denied").1 (by decide) (by decide),
   (C4_http_error_classification 500 [] "").2.1 (by decide) (by decide),
   by decide,
   (C4_http_error_classification 404 (utf8Encode "Unauthorized") "Unauthorized").2.2⟩

end ITCReporter

namespace ITCReporter

/-- Claim C5.  For credentials produced by `get_credentials`: a non-empty
resolved access token means the built JSON omits `password` and carries
`accesstoken`; an empty resolved token (none from argument or environment)
means the JSON omits `accesstoken`; and whenever the resolved tuple carries
any non-empty secret, exactly one of the two fields is present. -/
theorem C5_auth_field_exclusivity (args : Args) (env : Env) (prompt : String) (query : String) :
    ((get_credentials args env prompt).access_token ≠ "" →
      (build_json_request (get_credentials args env prompt) query).lookup "password" = none
      ∧ (build_json_request (get_credentials args env prompt) query).lookup "accesstoken"
          = some (get_credentials args env prompt).access_token)
    ∧ ((get_credentials args env prompt).access_token = "" →
      (build_json_request (get_credentials args env prompt) query).lookup "accesstoken" = none)
    ∧ ((get_credentials args env prompt).access_token ≠ ""
          ∨ (get_credentials args env prompt).password ≠ "" →
      ((build_json_request (get_credentials args env prompt) query).lookup "accesstoken"
          = some (get_credentials args env prompt).access_token
        ∧ (build_json_request (get_credentials args env prompt) query).lookup "password" = none)
      ∨ ((build_json_request (get_credentials args env prompt) query).lookup "accesstoken" = none
        ∧ (build_json_request (get_credentials args env prompt) query).lookup "password"
            = some (get_credentials args env prompt).password)) := by
  have hp := get_credentials_token_or_password args env prompt
  refine ⟨?_, ?_, ?_⟩
  · intro h
    simp [build_json_request_password_lookup, build_json_request_accesstoken_lookup, h, hp h]
  · intro h
    simp [build_json_request_accesstoken_lookup, h]
  · intro h
    by_cases ht : (get_credentials args env prompt).access_token = ""
    · right
      have hpw : (get_credentials args env prompt).password ≠ "" := by
        rcases h with h | h
        · exact absurd ht h
        · exact h
      simp [build_json_request_password_lookup, build_json_request_accesstoken_lookup, ht, hpw]
    · left
      simp [build_json_request_password_lookup, build_json_request_accesstoken_lookup, ht, hp ht]

/-- Witness for C5 at concrete inputs: a token-authenticated and a
password-authenticated argument namespace. -/
theorem C5_auth_field_exclusivity_witness :
    ((build_json_request (get_credentials sampleArgsToken envEmpty "") "q").lookup "password" = none
      ∧ (build_json_request (get_credentials sampleArgsToken envEmpty "") "q").lookup "accesstoken"
          = some (get_credentials sampleArgsToken envEmpty "").access_token)
    ∧ (build_json_request (get_credentials sampleArgsPassword envEmpty "") "q").lookup "accesstoken"
        = none
    ∧ (((build_json_request (get_credentials sampleArgsPassword envEmpty "") "q").lookup "accesstoken"
          = some (get_credentials sampleArgsPassword envEmpty "").access_token
        ∧ (build_json_request (get_credentials sampleArgsPassword envEmpty "") "q").lookup "password"
            = none)
      ∨ ((build_json_request (get_credentials sampleArgsPassword envEmpty "") "q").lookup "accesstoken"
          = none
        ∧ (build_json_request (get_credentials sampleArgsPassword envEmpty "") "q").lookup "password"
            = some (get_credentials sampleArgsPassword envEmpty "").password)) :=
  ⟨(C5_auth_field_exclusivity sampleArgsToken envEmpty "" "q").1 (by decide),
   (C5_auth_field_exclusivity sampleArgsPassword envEmpty "" "q").2.1 (by decide),
   (C5_auth_field_exclusivity sampleArgsPassword envEmpty "" "q").2.2 (Or.inr (by decide))⟩

/-- Counterexample to claim C6 at a concrete input.  The claim says the
target filename has exactly a trailing `.gz` stripped for every metadata
filename, including ones not ending in `.gz`.  With metadata filename
`abc.txt` the code writes to `abc.` (it unconditionally removes the last
three characters), while stripping a trailing `.gz` would leave `abc.txt`
unchanged. -/
theorem C6_strip_gz_counterexample :
    output_result (fun b => some b)
        (utf8Encode "x",
          ⟨"application/a-gzip", [("downloadmsg", "msg"), ("filename", "abc.txt")]⟩) true
      = .ok { written := some ("abc.", utf8Encode "x"), displayed := "msg" }
    ∧ specStripGzSuffix "abc.txt" = "abc.txt"
    ∧ ("abc." : String) ≠ "abc.txt" := by
  refine ⟨rfl, by decide, by decide⟩

/-- Claim C6, amended.  For every gzip-classified response processed with
`unzip = true`, the target filename is the metadata filename (defaulting to
`report.txt.gz` when the header is absent or empty) with its last three
characters removed — which coincides with stripping a trailing `.gz`
exactly for filenames that do end in `.gz`. -/
theorem C6_filename_drops_last_three (decompress : List Nat → Option (List Nat))
    (content out : List Nat) (hdrs : ResponseHeaders) (m : String)
    (hct : hdrs.contentType = "application/a-gzip")
    (hmsg : hdrs.get "downloadmsg" = some m)
    (hdec : decompress content = some out) :
    output_result decompress (content, hdrs) true
      = .ok { written := some (pyDropLast3 (pyOrStr (hdrs.get "filename") "report.txt.gz"), out),
              displayed := pyReplace m ".txt.gz" ".txt" }
    ∧ (∀ s : String, strHasGzSuffix s = true → pyDropLast3 s = specStripGzSuffix s) := by
  constructor
  · simp [output_result, hct, hmsg, hdec]
  · intro s h
    simp [pyDropLast3, specStripGzSuffix, h]

/-- Witness for the amended C6 at a concrete input whose filename does end
in `.gz`, with both derived strings evaluated. -/
theorem C6_filename_drops_last_three_witness :
    (output_result (fun b => some b)
        (utf8Encode "data",
          ⟨"application/a-gzip",
            [("downloadmsg", "saved report_w.txt.gz"), ("filename", "report_w.txt.gz")]⟩) true
      = .ok { written := some
                (pyDropLast3 (pyOrStr
                  ((⟨"application/a-gzip",
                    [("downloadmsg", "saved report_w.txt.gz"),
                     ("filename", "report_w.txt.gz")]⟩ : ResponseHeaders).get "filename")
                  "report.txt.gz"), utf8Encode "data"),
              displayed := pyReplace "saved report_w.txt.gz" ".txt.gz" ".txt" }
      ∧ (∀ s : String, strHasGzSuffix s = true → pyDropLast3 s = specStripGzSuffix s))
    ∧ pyDropLast3 "report_w.txt.gz" = "report_w.txt"
    ∧ pyReplace "saved report_w.txt.gz" ".txt.gz" ".txt" = "saved report_w.txt" :=
  ⟨C6_filename_drops_last_three (fun b => some b) (utf8Encode "data") (utf8Encode "data")
      ⟨"application/a-gzip",
        [("downloadmsg", "saved report_w.txt.gz"), ("filename", "report_w.txt.gz")]⟩
      "saved report_w.txt.gz" rfl rfl rfl,
   by decide, by decide⟩

/-- Claim C7.  For every response whose content type is not
`application/a-gzip`, the processor decodes the body as UTF-8 and surfaces
it as display text, writing no file — regardless of the unzip flag and the
decompressor. -/
theorem C7_text_response_printed (decompress : List Nat → Option (List Nat))
    (content : List Nat) (hdrs : ResponseHeaders) (text : String) (unzip : Bool)
    (hct : ¬ hdrs.contentType = "application/a-gzip")
    (hdec : decodeUtf8 content = some text) :
    output_result decompress (content, hdrs) unzip
      = .ok { written := none, displayed := text } := by
  simp [output_result, hct, hdec]

/-- Witness for C7 at the claim's concrete scenario: body `OK` with a text
content type is displayed as `OK` with no file write. -/
theorem C7_text_response_printed_witness :
    output_result (fun _ => none) (utf8Encode "OK", ⟨"text/plain", []⟩) true
      = .ok { written := none, displayed := "OK" } :=
  C7_text_response_printed (fun _ => none) (utf8Encode "OK") ⟨"text/plain", []⟩ "OK" true
    (by decide) (by decide)

/-- Claim C8.  Credential resolution is performed exactly once per command
invocation: each of the seven single-shot commands calls `get_credentials`
once, and so does `generateToken` — its second `get_credentials` call at
line 90 sits in the dead second leg behind the unconditional line-85
`AttributeError`, so it never executes.  Each resolution reads the
environment fallback (or the prompt) once. -/
theorem C8_credential_resolution_once (args : Args) (env : Env) (prompt : String)
    (hdrs : List (String × String)) :
    credResolutions (itc_get_vendors args env prompt) = 1
    ∧ credResolutions (itc_get_status args env prompt) = 1
    ∧ credResolutions (itc_get_accounts args env prompt) = 1
    ∧ credResolutions (itc_get_vendor_and_regions args env prompt) = 1
    ∧ credResolutions (itc_get_sales_report args env prompt) = 1
    ∧ credResolutions (itc_view_token args env prompt) = 1
    ∧ credResolutions (itc_delete_token args env prompt) = 1
    ∧ credResolutions (itc_generate_token args env prompt hdrs).1 = 1 := by
  refine ⟨?_, ?_, ?_, ?_, ?_, ?_, ?_, ?_⟩ <;>
    simp [credResolutions, itc_get_vendors, itc_get_status, itc_get_accounts,
      itc_get_vendor_and_regions, itc_get_sales_report, itc_view_token,
      itc_delete_token, itc_generate_token]

/-- Claim C9.  `getSalesReport` issues exactly one request, to the sales
endpoint, whose `queryInput` is `Sales.getReport, <vendor>,Sales,Summary,
<datetype>,<date>` wrapped in the `[p=Reporter.properties, ...]` envelope;
at vendor 12345, Weekly, 20230101 the command string is exactly
`Sales.getReport, 12345,Sales,Summary,Weekly,20230101`. -/
theorem C9_sales_report_command_string (args : Args) (env : Env) (prompt : String) :
    (∃ r, postedRequests (itc_get_sales_report args env prompt) = [r]
      ∧ r.endpoint = ENDPOINT_SALES
      ∧ r.jsonRequest.lookup "queryInput"
          = some ("[p=Reporter.properties, "
              ++ sales_report_command args.vendor args.datetype args.date ++ "]"))
    ∧ sales_report_command 12345 "Weekly" "20230101"
        = "Sales.getReport, 12345,Sales,Summary,Weekly,20230101"
    ∧ "[p=Reporter.properties, " ++ sales_report_command 12345 "Weekly" "20230101" ++ "]"
        = "[p=Reporter.properties, Sales.getReport, 12345,Sales,Summary,Weekly,20230101]" := by
  refine ⟨⟨post_request_data ENDPOINT_SALES (get_credentials args env prompt)
      (sales_report_command args.vendor args.datetype args.date), ?_, ?_, ?_⟩,
    by decide, by decide⟩ <;>
    simp [itc_get_sales_report, postedRequests, post_request_data,
      build_json_request_queryInput]

/-- Claim C10.  For a gzip-typed response whose metadata lacks a
`downloadmsg` header, processing with `unzip = true` fails with the
`AttributeError` of rewriting an absent message, and no file is written
(the result is an error, never an `ok` outcome); by contrast an absent
filename is defaulted, so the same headers with a message but no filename
succeed and write to `report.txt`. -/
theorem C10_missing_downloadmsg_fails (decompress : List Nat → Option (List Nat))
    (content out : List Nat) (hdrs hdrs2 : ResponseHeaders) (m : String)
    (hct : hdrs.contentType = "application/a-gzip")
    (hmsg : hdrs.get "downloadmsg" = none)
    (hct2 : hdrs2.contentType = "application/a-gzip")
    (hmsg2 : hdrs2.get "downloadmsg" = some m)
    (hfn2 : hdrs2.get "filename" = none)
    (hdec : decompress content = some out) :
    (output_result decompress (content, hdrs) true = .error .attributeError
      ∧ ∀ o, output_result decompress (content, hdrs) true ≠ .ok o)
    ∧ output_result decompress (content, hdrs2) true
        = .ok { written := some ("report.txt", out),
                displayed := pyReplace m ".txt.gz" ".txt" } := by
  refine ⟨⟨?_, ?_⟩, ?_⟩
  · simp [output_result, hct, hmsg]
  · intro o
    simp [output_result, hct, hmsg]
  · have hfn : pyDropLast3 (pyOrStr (hdrs2.get "filename") "report.txt.gz") = "report.txt" := by
      rw [hfn2]; decide
    simp [output_result, hct2, hmsg2, hdec, ← hfn]

/-- Witness for C10 at concrete inputs: a gzip response without
`downloadmsg` errors out; one with a message but no filename writes the
decompressed body to `report.txt`. -/
theorem C10_missing_downloadmsg_fails_witness :
    output_result (fun b => some b)
        (utf8Encode "z", ⟨"application/a-gzip", [("filename", "f.txt.gz")]⟩) true
      = .error .attributeError
    ∧ output_result (fun b => some b)
        (utf8Encode "z", ⟨"application/a-gzip", [("downloadmsg", "ok.txt.gz saved")]⟩) true
      = .ok { written := some ("report.txt", utf8Encode "z"),
              displayed := pyReplace "ok.txt.gz saved" ".txt.gz" ".txt" } :=
  ⟨(C10_missing_downloadmsg_fails (fun b => some b) (utf8Encode "z") (utf8Encode "z")
      ⟨"application/a-gzip", [("filename", "f.txt.gz")]⟩
      ⟨"application/a-gzip", [("downloadmsg", "ok.txt.gz saved")]⟩
      "ok.txt.gz saved" rfl rfl rfl rfl rfl rfl).1.1,
   (C10_missing_downloadmsg_fails (fun b => some b) (utf8Encode "z") (utf8Encode "z")
      ⟨"application/a-gzip", [("filename", "f.txt.gz")]⟩
      ⟨"application/a-gzip", [("downloadmsg", "ok.txt.gz saved")]⟩
      "ok.txt.gz saved" rfl rfl rfl rfl rfl rfl).2⟩

end ITCReporter
